import Mathlib

/-!
Verification of the austack real-time audio pipeline
(`sdk/nodejs/src/AudioInterface.ts`, `sdk/nodejs/src/ConversationManager.ts`,
`sdk/nodejs/src/WebSocketManager.ts`).

The TypeScript classes are shallowly embedded as explicit state records and
step functions.  Wall-clock times (`Date.now()`) are integers in milliseconds,
float samples and RMS values are rationals, and 16-bit PCM samples are
integers.  Callback invocations (the input callback, the amplitude callback,
`onInterrupt`, `console.error`) are modelled as explicit outputs of each step.
-/

attribute [local semireducible] Rat.add Rat.mul Rat.sub Rat.inv Rat.ofScientific

namespace Austack

/-- `silenceThreshold = 0.01` (AudioInterface.ts line 20). -/
def silenceThreshold : ℚ := 1/100

/-- `silenceTimeout = 2000` ms (AudioInterface.ts line 21). -/
def silenceTimeout : ℤ := 2000

/-- `sendInterval = 500` ms (AudioInterface.ts line 22). -/
def sendInterval : ℤ := 500

/-- `interruptThreshold = 0.05` (AudioInterface.ts line 25). -/
def interruptThreshold : ℚ := 1/20

/-- The noise-floor constant `0.02` hard-coded in `calculateRMS`
(AudioInterface.ts line 50). -/
def noiseFloor : ℚ := 1/50

/-- One captured audio frame.  `samples` are the float32 samples in `[-1, 1]`;
`rms` carries the value `Math.sqrt(sum / audioData.length)` computed at
AudioInterface.ts line 49.  The square root is irrational in general, so the
embedding carries the frame's RMS as data, constrained by `isRMSof` where a
concrete frame is used. -/
structure Frame where
  samples : List ℚ
  rms : ℚ
deriving Repr, DecidableEq

/-- Mean of the squared samples, `sum / audioData.length`
(AudioInterface.ts lines 44-49). -/
def meanSq (samples : List ℚ) : ℚ :=
  ((samples.map fun x => x * x).sum) / samples.length

/-- `r` is the value `Math.sqrt(meanSq samples)`: the nonnegative square root. -/
def isRMSof (r : ℚ) (samples : List ℚ) : Prop :=
  0 ≤ r ∧ r * r = meanSq samples

instance (r : ℚ) (samples : List ℚ) : Decidable (isRMSof r samples) :=
  inferInstanceAs (Decidable (0 ≤ r ∧ r * r = meanSq samples))

/-- `calculateRMS` (AudioInterface.ts lines 43-55): the computed RMS with any
value below `0.02` clamped to `0`. -/
def calculateRMS (f : Frame) : ℚ :=
  if f.rms < noiseFloor then 0 else f.rms

/-- `isSpeech` (AudioInterface.ts lines 57-60): clamped RMS strictly above the
silence threshold. -/
def isSpeech (f : Frame) : Bool :=
  decide (silenceThreshold < calculateRMS f)

/-- Truncation toward zero, the JavaScript `ToInt16` integer conversion applied
by the typed-array store at AudioInterface.ts line 75. -/
def truncQ (q : ℚ) : ℤ :=
  if 0 ≤ q then ⌊q⌋ else ⌈q⌉

/-- `Math.max(-1, Math.min(1, x))` (AudioInterface.ts line 74). -/
def clampSample (x : ℚ) : ℚ :=
  max (-1) (min 1 x)

/-- One sample of `float32ArrayToInt16Array`: clamp then scale by `32767`,
truncated to an integer by the `Int16Array` store (AudioInterface.ts
lines 74-75). -/
def sampleToInt16 (x : ℚ) : ℤ :=
  truncQ (clampSample x * 32767)

/-- `float32ArrayToInt16Array` (AudioInterface.ts lines 70-78). -/
def float32ArrayToInt16Array (samples : List ℚ) : List ℤ :=
  samples.map sampleToInt16

/-- One sample of `convertPCMToFloat32`: `int16Data[i] / 32768.0`
(AudioInterface.ts line 231). -/
def int16ToFloat (i : ℤ) : ℚ :=
  (i : ℚ) / 32768

/-- `convertPCMToFloat32` (AudioInterface.ts lines 220-235), with a PCM chunk
represented as its list of decoded int16 samples. -/
def convertPCMToFloat32 (pcm : List ℤ) : List ℚ :=
  pcm.map int16ToFloat

/-- Round trip of one sample through `float32ArrayToInt16Array` and
`convertPCMToFloat32`. -/
def roundTrip (x : ℚ) : ℚ :=
  int16ToFloat (sampleToInt16 x)

/-- The mutable fields of `AudioInterface` (AudioInterface.ts lines 1-32).
PCM byte chunks are represented as lists of int16 samples. -/
structure AudioState where
  isRunning : Bool
  outputQueue : List (List ℤ)
  isOutputPlaying : Bool
  currentOutputSource : Option (List ℤ)
  isAudioPlaying : Bool
  lastSpeechTime : Option ℤ
  audioBufferParts : List (List ℤ)
  lastSendTime : ℤ
deriving Repr, DecidableEq

/-- The `AudioInterface` fields right after construction, where
`lastSendTime = Date.now()` is the construction time `t0`
(AudioInterface.ts lines 6-31). -/
def initAudioState (t0 : ℤ) : AudioState :=
  { isRunning := false
    outputQueue := []
    isOutputPlaying := false
    currentOutputSource := none
    isAudioPlaying := false
    lastSpeechTime := none
    audioBufferParts := []
    lastSendTime := t0 }

/-- `shouldSendAudio` (AudioInterface.ts lines 62-68) evaluated at wall-clock
time `now`. -/
def shouldSendAudio (s : AudioState) (now : ℤ) : Bool :=
  match s.lastSpeechTime with
  | none => false
  | some t => decide (now - t < silenceTimeout)

/-- Speech stage of `processAudioData` (AudioInterface.ts lines 89-100):
update `lastSpeechTime` on speech and fire `onInterrupt` (returned flag) when
speaking during playback above the interrupt threshold, disarming
`isAudioPlaying`. -/
def speechUpdate (s : AudioState) (f : Frame) (now : ℤ) : AudioState × Bool :=
  if isSpeech f then
    let s1 := { s with lastSpeechTime := some now }
    if s.isAudioPlaying = true ∧ interruptThreshold < calculateRMS f then
      ({ s1 with isAudioPlaying := false }, true)
    else
      (s1, false)
  else
    (s, false)

/-- Buffering stage of `processAudioData` (AudioInterface.ts lines 102-106):
append the frame's 16-bit PCM to the capture buffer when transmitting. -/
def bufferUpdate (s : AudioState) (f : Frame) (now : ℤ) : AudioState :=
  if shouldSendAudio s now then
    { s with audioBufferParts := s.audioBufferParts ++ [float32ArrayToInt16Array f.samples] }
  else
    s

/-- The flush condition of `processAudioData` (AudioInterface.ts
lines 109-113). -/
def flushCond (s : AudioState) (now : ℤ) : Prop :=
  sendInterval ≤ now - s.lastSendTime ∧
    s.audioBufferParts ≠ [] ∧ shouldSendAudio s now = true

instance (s : AudioState) (now : ℤ) : Decidable (flushCond s now) :=
  inferInstanceAs (Decidable (sendInterval ≤ now - s.lastSendTime ∧
    s.audioBufferParts ≠ [] ∧ shouldSendAudio s now = true))

/-- Flush stage of `processAudioData` (AudioInterface.ts lines 108-130):
concatenate the buffered chunks, hand them to the input callback (returned
payload), clear the buffer and reset the flush timer. -/
def flushUpdate (s : AudioState) (now : ℤ) : AudioState × Option (List ℤ) :=
  if flushCond s now then
    ({ s with audioBufferParts := [], lastSendTime := now },
      some s.audioBufferParts.flatten)
  else
    (s, none)

/-- The callback outputs of one `processAudioData` invocation: the amplitude
reported to the amplitude callback, whether `onInterrupt` was invoked, and the
flushed payload handed to the input callback (if any). -/
structure CaptureOutput where
  amplitude : ℚ
  interruptSent : Bool
  flushed : Option (List ℤ)
deriving Repr, DecidableEq

/-- `processAudioData` (AudioInterface.ts lines 80-131) at wall-clock time
`now`:  amplitude report, speech/interrupt stage, buffering stage, flush
stage. -/
def processAudioData (s : AudioState) (f : Frame) (now : ℤ) :
    AudioState × CaptureOutput :=
  let p := speechUpdate s f now
  let s2 := bufferUpdate p.1 f now
  let q := flushUpdate s2 now
  (q.1, { amplitude := calculateRMS f, interruptSent := p.2, flushed := q.2 })

/-- One entry of a capture run trace: the frame's wall-clock time, whether
`onInterrupt` fired, and the flushed payload (if any). -/
structure TraceItem where
  time : ℤ
  interrupted : Bool
  flushed : Option (List ℤ)
deriving Repr, DecidableEq

/-- Run `processAudioData` over a list of (frame, arrival-time) pairs,
collecting the trace. -/
def runCaptureTrace (s : AudioState) : List (Frame × ℤ) → AudioState × List TraceItem
  | [] => (s, [])
  | (f, t) :: rest =>
    let p := processAudioData s f t
    let q := runCaptureTrace p.1 rest
    (q.1, { time := t, interrupted := p.2.interruptSent, flushed := p.2.flushed } :: q.2)

/-- Number of `onInterrupt` invocations in a trace. -/
def interruptCount (items : List TraceItem) : ℕ :=
  (items.filter fun it => it.interrupted).length

/-- The wall-clock times of the flushes in a trace. -/
def flushTimes (items : List TraceItem) : List ℤ :=
  (items.filter fun it => it.flushed.isSome).map TraceItem.time

/-- The payloads of the flushes in a trace, in order. -/
def flushPayloads (items : List TraceItem) : List (List ℤ) :=
  items.filterMap TraceItem.flushed

/-- Result of one playback-driving step: the new `AudioInterface` state, the
chunk whose render successfully started (`source.start()` at line 265 ran
without throwing), and whether `console.error` reported a failure. -/
structure RenderResult where
  state : AudioState
  started : Option (List ℤ)
  reported : Bool
deriving Repr, DecidableEq

/-- `playNextOutputChunk` (AudioInterface.ts lines 237-271) within an active
session (non-null `outputAudioContext`).  `startFails` says whether
`source.start()` throws a device/resource error for this chunk. -/
def playNextOutputChunk (s : AudioState) (startFails : Bool) : RenderResult :=
  match s.outputQueue with
  | [] =>
    { state := { s with isOutputPlaying := false, isAudioPlaying := false,
                        currentOutputSource := none }
      started := none
      reported := false }
  | c :: rest =>
    if startFails then
      { state := { s with outputQueue := rest, isOutputPlaying := false,
                          currentOutputSource := none }
        started := none
        reported := true }
    else
      { state := { s with outputQueue := rest, isOutputPlaying := true,
                          currentOutputSource := some c }
        started := some c
        reported := false }

/-- `play` (AudioInterface.ts lines 182-197) within an active session: mark
audio-playing for interrupt detection, enqueue the chunk, and kick off playback
only when not already playing. -/
def play (s : AudioState) (chunk : List ℤ) (startFails : Bool) : RenderResult :=
  let s1 := { s with isAudioPlaying := true,
                     outputQueue := s.outputQueue ++ [chunk] }
  if s1.isOutputPlaying then
    { state := s1, started := none, reported := false }
  else
    playNextOutputChunk s1 startFails

/-- `setAudioPlaybackState` (AudioInterface.ts lines 199-201). -/
def setAudioPlaybackState (s : AudioState) (b : Bool) : AudioState :=
  { s with isAudioPlaying := b }

/-- `interruptPlayback` (AudioInterface.ts lines 207-218): clear the queue,
reset playback state and stop any in-flight render. -/
def interruptPlayback (s : AudioState) : AudioState :=
  { s with outputQueue := [], isOutputPlaying := false, isAudioPlaying := false,
           currentOutputSource := none }

/-- `AudioInterface.stop` (AudioInterface.ts lines 274-300): halt capture,
clear the playback queue and stop any in-flight render (`isAudioPlaying` is
left untouched by the source). -/
def audioStop (s : AudioState) : AudioState :=
  { s with isRunning := false, outputQueue := [], isOutputPlaying := false,
           currentOutputSource := none }

/-- Number of chunks actively rendering: the single `currentOutputSource`
slot. -/
def numRendering (s : AudioState) : ℕ :=
  match s.currentOutputSource with
  | none => 0
  | some _ => 1

/-- Playback-side events delivered by the cooperative scheduler: an inbound
chunk enqueued via `play`, or the `onended` completion callback
(AudioInterface.ts line 262) of the current render. -/
inductive PlayEvent where
  | enqueue : List ℤ → PlayEvent
  | ended : PlayEvent
deriving Repr, DecidableEq

/-- Dispatch one playback event (with no render failure): `play` for an
inbound chunk, `playNextOutputChunk` for the completion callback. -/
def playStep (s : AudioState) : PlayEvent → RenderResult
  | .enqueue c => play s c false
  | .ended => playNextOutputChunk s false

/-- Run a list of playback events (with no render failures) from a state,
collecting the chunks whose render started, in order. -/
def runPlayback (s : AudioState) : List PlayEvent → AudioState × List (List ℤ)
  | [] => (s, [])
  | e :: rest =>
    let r := playStep s e
    let q := runPlayback r.state rest
    (q.1, r.started.toList ++ q.2)

/-- `ConversationState` (ConversationManager.ts lines 4-10). -/
structure ConversationState where
  isConnected : Bool
  isRecording : Bool
  isPlaying : Bool
  currentAmplitude : ℚ
  error : Option String
deriving Repr, DecidableEq

/-- The initial `ConversationState` (ConversationManager.ts lines 19-25). -/
def initConvState : ConversationState :=
  { isConnected := false, isRecording := false, isPlaying := false,
    currentAmplitude := 0, error := none }

/-- The mutable state of a `ConversationManager` together with its owned
`AudioInterface` and `WebSocketManager`.  `wsConnected` models an open
websocket (`websocket !== null && readyState === OPEN && isRunning` in
WebSocketManager.ts); `sentText` and `sentBinary` record the messages the
websocket actually sent. -/
structure ManagerState where
  isRunning : Bool
  convState : ConversationState
  audio : AudioState
  wsConnected : Bool
  sentText : List String
  sentBinary : List (List ℤ)
deriving Repr, DecidableEq

/-- A freshly constructed `ConversationManager` whose `AudioInterface` was
built at time `t0`. -/
def initManager (t0 : ℤ) : ManagerState :=
  { isRunning := false, convState := initConvState, audio := initAudioState t0,
    wsConnected := false, sentText := [], sentBinary := [] }

/-- `WebSocketManager.sendInterrupt` (WebSocketManager.ts lines 416-427):
send the distinguished `interrupt` text message when the socket is open,
otherwise only warn. -/
def wsSendInterrupt (m : ManagerState) : ManagerState :=
  if m.wsConnected then { m with sentText := m.sentText ++ ["interrupt"] } else m

/-- `WebSocketManager.sendAudioData` (WebSocketManager.ts lines 383-397). -/
def wsSendAudioData (m : ManagerState) (payload : List ℤ) : ManagerState :=
  if m.wsConnected then { m with sentBinary := m.sentBinary ++ [payload] } else m

/-- One capture frame processed at `ConversationManager` level: the
`AudioInterface.processAudioData` step plus the wired callbacks — the
amplitude callback updates `currentAmplitude` (ConversationManager.ts
lines 53-55), `onInterrupt` sends the interrupt signal (lines 57-60; note it
does not touch the playback queue), and the input callback forwards the
flushed payload to the websocket (lines 49-51). -/
def managerProcessAudio (m : ManagerState) (f : Frame) (now : ℤ) : ManagerState :=
  let p := processAudioData m.audio f now
  let m1 := { m with audio := p.1,
                     convState := { m.convState with currentAmplitude := p.2.amplitude } }
  let m2 := if p.2.interruptSent then wsSendInterrupt m1 else m1
  match p.2.flushed with
  | some payload => wsSendAudioData m2 payload
  | none => m2

/-- One `onended`/render step at manager level: `playNextOutputChunk` touches
only the `AudioInterface` state (render errors go to `console.error` only). -/
def managerRenderStep (m : ManagerState) (startFails : Bool) : ManagerState :=
  { m with audio := (playNextOutputChunk m.audio startFails).state }

/-- `stopConversation` (ConversationManager.ts lines 106-130): a no-op unless
running; otherwise halt capture, disconnect the websocket and reset the
published state to its baseline. -/
def stopConversation (m : ManagerState) : ManagerState :=
  if m.isRunning then
    { m with isRunning := false, audio := audioStop m.audio, wsConnected := false,
             convState := initConvState }
  else
    m

/-- `startConversation` (ConversationManager.ts lines 69-104).  `connectErr`
and `audioErr` are the outcomes of `webSocketManager.connect()` and
`audioInterface.start()` (`none` = success, `some msg` = the thrown error's
message).  The returned `Option String` is the rejection surfaced to the
caller (`none` = the promise resolved). -/
def startConversation (m : ManagerState) (connectErr audioErr : Option String) :
    ManagerState × Option String :=
  if m.isRunning then
    (m, none)
  else
    let m0 := { m with convState := { m.convState with error := none } }
    match connectErr with
    | some msg =>
      let m1 := { m0 with convState :=
        { m0.convState with
            error := some ("Failed to start conversation: " ++ msg),
            isConnected := false, isRecording := false } }
      (stopConversation m1, some msg)
    | none =>
      let m1 := { m0 with wsConnected := true,
                          convState := { m0.convState with isConnected := true } }
      match audioErr with
      | some msg =>
        let m2 := { m1 with convState :=
          { m1.convState with
              error := some ("Failed to start conversation: " ++ msg),
              isConnected := false, isRecording := false } }
        (stopConversation m2, some msg)
      | none =>
        let m2 := { m1 with audio := { m1.audio with isRunning := true },
                            convState := { m1.convState with isRecording := true } }
        ({ m2 with isRunning := true }, none)

/-- A captured frame of digital silence (all-zero samples, RMS `0`). -/
def silentFrame : Frame := ⟨[0, 0], 0⟩

/-- A captured frame with RMS exactly `0.02` (all samples `1/50`). -/
def speechFrame002 : Frame := ⟨[1/50, 1/50], 1/50⟩

/-- A captured frame with RMS `0.10` (all samples `1/10`), above the interrupt
threshold `0.05`. -/
def interruptFrame : Frame := ⟨[1/10, 1/10], 1/10⟩

/-- Forty silent frames arriving at the 64 ms capture cadence, the first at
64 ms. -/
def scenarioSilent : List (Frame × ℤ) :=
  (List.range 40).map fun k => (silentFrame, 64 * ((k : ℤ) + 1))

/-- One frame with RMS `0.02` at 64 ms followed by 35 silent frames at the
64 ms capture cadence (silence through 2304 ms). -/
def scenarioSpeech : List (Frame × ℤ) :=
  (speechFrame002, 64) :: (List.range 35).map fun k => (silentFrame, 64 * ((k : ℤ) + 2))

/-- An `AudioInterface` state mid-playback: one chunk queued behind an
in-flight render, interrupt detection armed. -/
def playingAudio : AudioState :=
  { initAudioState 0 with
      isRunning := true
      outputQueue := [[5]]
      isOutputPlaying := true
      currentOutputSource := some [7]
      isAudioPlaying := true }

/-- An active conversation mid-playback with an open websocket. -/
def playingManager : ManagerState :=
  { isRunning := true
    convState := { initConvState with isConnected := true, isRecording := true }
    audio := playingAudio
    wsConnected := true
    sentText := []
    sentBinary := [] }

/-- A capture state that is due for a flush: recent speech at 550 ms, one
buffered chunk, flush timer at 0. -/
def flushReadyAudio : AudioState :=
  { initAudioState 0 with
      isRunning := true
      lastSpeechTime := some 550
      audioBufferParts := [[1]] }

/-- Claim C1 (code_bug evaluation): while playing (queue `[[5]]`, in-flight
render `[7]`, interrupts armed, websocket open), a speech frame with RMS
`0.10 > 0.05` makes the trigger path send exactly one `interrupt` control
message and disarm interrupt detection — but the playback queue is NOT
cleared, the in-flight render is NOT stopped and the queue does not go Idle:
`ConversationManager.onInterrupt` never invokes `interruptPlayback`. -/
theorem interrupt_trigger_leaves_playback_running :
    (managerProcessAudio playingManager interruptFrame 100).sentText = ["interrupt"] ∧
    (managerProcessAudio playingManager interruptFrame 100).audio.isAudioPlaying = false ∧
    (managerProcessAudio playingManager interruptFrame 100).audio.outputQueue = [[5]] ∧
    (managerProcessAudio playingManager interruptFrame 100).audio.isOutputPlaying = true ∧
    (managerProcessAudio playingManager interruptFrame 100).audio.currentOutputSource
      = some [7] ∧
    isSpeech interruptFrame = true ∧
    interruptThreshold < calculateRMS interruptFrame ∧
    isRMSof interruptFrame.rms interruptFrame.samples := by
  decide

/-- Claim C2 (code_bug evaluation): on a fresh manager, when the websocket
connects but the capture device fails to start, `startConversation` rejects
with the error and sets `ConversationState.error` to a human-readable summary
— but the automatic `stopConversation` is a no-op (the `isRunning` guard fires
because the session was never marked running), so the connected websocket is
left open: partial resources are NOT released. -/
theorem start_failure_cleanup_is_noop :
    (startConversation (initManager 0) none (some "mic unavailable")).2
      = some "mic unavailable" ∧
    (startConversation (initManager 0) none (some "mic unavailable")).1.convState.error
      = some "Failed to start conversation: mic unavailable" ∧
    (startConversation (initManager 0) none (some "mic unavailable")).1.wsConnected
      = true ∧
    (startConversation (initManager 0) none (some "mic unavailable")).1.isRunning
      = false := by
  decide

/-- Claim C3 counterexample: in the spec's own scenario (one frame with RMS
`0.02` followed by 35 silent frames at the 64 ms cadence), the code performs
four flushes, not one, and the first flush's payload is not just the speech
frame's bytes — silent frames inside the 2000 ms trailing window are buffered
and flushed as well. -/
theorem capture_scenario_not_single_flush :
    (flushPayloads (runCaptureTrace (initAudioState 0) scenarioSpeech).2).length = 4 ∧
    ¬ flushPayloads (runCaptureTrace (initAudioState 0) scenarioSpeech).2
        = [float32ArrayToInt16Array speechFrame002.samples] := by
  decide

/-- Claim C3 (amended): forty silent frames produce zero flushes; the
speech-then-silence stream produces exactly four flushes, at 512, 1024, 1536
and 2048 ms — the first carrying the speech frame's bytes followed by the
seven buffered silent frames, the rest carrying only silent frames buffered
inside the 2000 ms trailing window — and no flush occurs after the trailing
window expires (all flush times are at most 64 ms + silence timeout), with
the capture buffer empty at the end. -/
theorem capture_scenario_flush_trace :
    flushPayloads (runCaptureTrace (initAudioState 0) scenarioSilent).2 = [] ∧
    flushTimes (runCaptureTrace (initAudioState 0) scenarioSpeech).2
      = [512, 1024, 1536, 2048] ∧
    flushPayloads (runCaptureTrace (initAudioState 0) scenarioSpeech).2
      = [float32ArrayToInt16Array speechFrame002.samples ++ List.replicate 14 0,
         List.replicate 16 0, List.replicate 16 0, List.replicate 16 0] ∧
    (∀ t ∈ flushTimes (runCaptureTrace (initAudioState 0) scenarioSpeech).2,
        t ≤ 64 + silenceTimeout) ∧
    (runCaptureTrace (initAudioState 0) scenarioSpeech).1.audioBufferParts = [] := by
  decide

/-- Claim C8 counterexample: the sample `2/3` lies in `[-1, 1]`, yet its
round trip through `float32ArrayToInt16Array` and `convertPCMToFloat32`
errs by `1/24576`, strictly more than the claimed `1/32768` bound (the
conversion truncates toward zero and scales by `32767` down but `32768`
up). -/
theorem pcm_roundtrip_exceeds_quantization :
    -1 ≤ (2/3 : ℚ) ∧ (2/3 : ℚ) ≤ 1 ∧
    (1 : ℚ)/32768 < |roundTrip (2/3) - 2/3| ∧
    |roundTrip (2/3) - 2/3| = 1/24576 := by
  decide

/-! Preservation lemmas for the three stages of `processAudioData`. -/

theorem speechUpdate_lastSendTime (s : AudioState) (f : Frame) (now : ℤ) :
    (speechUpdate s f now).1.lastSendTime = s.lastSendTime := by
  unfold speechUpdate
  split
  · split
    · rfl
    · rfl
  · rfl

theorem speechUpdate_audioBufferParts (s : AudioState) (f : Frame) (now : ℤ) :
    (speechUpdate s f now).1.audioBufferParts = s.audioBufferParts := by
  unfold speechUpdate
  split
  · split
    · rfl
    · rfl
  · rfl

theorem speechUpdate_not_playing (s : AudioState) (f : Frame) (now : ℤ)
    (h : s.isAudioPlaying = false) :
    (speechUpdate s f now).1.isAudioPlaying = false ∧
      (speechUpdate s f now).2 = false := by
  unfold speechUpdate
  split
  · split
    · rename_i hc
      rw [h] at hc
      exact absurd hc.1 (by simp)
    · exact ⟨h, rfl⟩
  · exact ⟨h, rfl⟩

theorem speechUpdate_not_speech (s : AudioState) (f : Frame) (now : ℤ)
    (h : isSpeech f = false) :
    speechUpdate s f now = (s, false) := by
  unfold speechUpdate
  rw [h]
  simp

theorem bufferUpdate_isAudioPlaying (s : AudioState) (f : Frame) (now : ℤ) :
    (bufferUpdate s f now).isAudioPlaying = s.isAudioPlaying := by
  unfold bufferUpdate
  split
  · rfl
  · rfl

theorem bufferUpdate_lastSendTime (s : AudioState) (f : Frame) (now : ℤ) :
    (bufferUpdate s f now).lastSendTime = s.lastSendTime := by
  unfold bufferUpdate
  split
  · rfl
  · rfl

theorem bufferUpdate_lastSpeechTime (s : AudioState) (f : Frame) (now : ℤ) :
    (bufferUpdate s f now).lastSpeechTime = s.lastSpeechTime := by
  unfold bufferUpdate
  split
  · rfl
  · rfl

theorem bufferUpdate_not_sending (s : AudioState) (f : Frame) (now : ℤ)
    (h : shouldSendAudio s now = false) :
    bufferUpdate s f now = s := by
  unfold bufferUpdate
  rw [h]
  simp

theorem flushUpdate_pos (s : AudioState) (now : ℤ) (h : flushCond s now) :
    flushUpdate s now =
      ({ s with audioBufferParts := [], lastSendTime := now },
        some s.audioBufferParts.flatten) := by
  unfold flushUpdate
  rw [if_pos h]

theorem flushUpdate_neg (s : AudioState) (now : ℤ) (h : ¬ flushCond s now) :
    flushUpdate s now = (s, none) := by
  unfold flushUpdate
  rw [if_neg h]

theorem flushUpdate_isAudioPlaying (s : AudioState) (now : ℤ) :
    (flushUpdate s now).1.isAudioPlaying = s.isAudioPlaying := by
  unfold flushUpdate
  split
  · rfl
  · rfl

theorem flushUpdate_lastSpeechTime (s : AudioState) (now : ℤ) :
    (flushUpdate s now).1.lastSpeechTime = s.lastSpeechTime := by
  unfold flushUpdate
  split
  · rfl
  · rfl

theorem shouldSendAudio_of_lastSpeechTime (s s' : AudioState) (now : ℤ)
    (h : s.lastSpeechTime = s'.lastSpeechTime) :
    shouldSendAudio s now = shouldSendAudio s' now := by
  unfold shouldSendAudio
  rw [h]

theorem playNextOutputChunk_keeps_playing (s : AudioState) (b : Bool)
    (h : s.outputQueue ≠ []) :
    (playNextOutputChunk s b).state.isAudioPlaying = s.isAudioPlaying := by
  obtain ⟨c, rest, hq⟩ : ∃ c rest, s.outputQueue = c :: rest := by
    cases hqq : s.outputQueue with
    | nil => exact absurd hqq h
    | cons a l => exact ⟨a, l, rfl⟩
  unfold playNextOutputChunk
  rw [hq]
  cases b
  · rfl
  · rfl

theorem processAudioData_not_playing (s : AudioState) (f : Frame) (now : ℤ)
    (h : s.isAudioPlaying = false) :
    (processAudioData s f now).1.isAudioPlaying = false ∧
      (processAudioData s f now).2.interruptSent = false := by
  obtain ⟨h1, h2⟩ := speechUpdate_not_playing s f now h
  unfold processAudioData
  refine ⟨?_, h2⟩
  rw [flushUpdate_isAudioPlaying, bufferUpdate_isAudioPlaying]
  exact h1

theorem runCaptureTrace_disarmed (fs : List (Frame × ℤ)) :
    ∀ s : AudioState, s.isAudioPlaying = false →
      interruptCount (runCaptureTrace s fs).2 = 0 ∧
        (runCaptureTrace s fs).1.isAudioPlaying = false := by
  induction fs with
  | nil => exact fun s h => ⟨rfl, h⟩
  | cons p rest ih =>
    intro s h
    obtain ⟨hstate, hsent⟩ := processAudioData_not_playing s p.1 p.2 h
    have hrest := ih (processAudioData s p.1 p.2).1 hstate
    unfold runCaptureTrace
    constructor
    · simp only [interruptCount, List.filter]
      rw [hsent]
      exact hrest.1
    · exact hrest.2

/-- Claim C5: once the interrupt mechanism is disarmed by a trigger
(`isAudioPlaying := false`), no further capture frame — qualifying or not —
fires `onInterrupt` or re-arms the mechanism; a qualifying frame
(speech-classified, RMS above the interrupt threshold) while armed fires the
trigger and disarms; the flag is raised again only by a playback enqueue
(`play`) or the explicit external setter (`setAudioPlaybackState`). -/
theorem interrupt_disarm_until_rearm :
    (∀ (s : AudioState) (f : Frame) (now : ℤ),
        s.isAudioPlaying = true → isSpeech f = true →
        interruptThreshold < calculateRMS f →
          (processAudioData s f now).2.interruptSent = true ∧
            (processAudioData s f now).1.isAudioPlaying = false) ∧
    (∀ (s : AudioState) (fs : List (Frame × ℤ)), s.isAudioPlaying = false →
        interruptCount (runCaptureTrace s fs).2 = 0 ∧
          (runCaptureTrace s fs).1.isAudioPlaying = false) ∧
    (∀ (s : AudioState) (c : List ℤ) (b : Bool),
        (play s c b).state.isAudioPlaying = true) ∧
    (∀ (s : AudioState) (b : Bool),
        (setAudioPlaybackState s b).isAudioPlaying = b) := by
  refine ⟨?_, fun s fs h => runCaptureTrace_disarmed fs s h, ?_, fun s b => rfl⟩
  · intro s f now h1 h2 h3
    have hsp : speechUpdate s f now =
        ({ s with lastSpeechTime := some now, isAudioPlaying := false }, true) := by
      unfold speechUpdate
      rw [h2]
      simp only [if_true]
      rw [if_pos ⟨h1, h3⟩]
    constructor
    · simp only [processAudioData, hsp]
    · simp only [processAudioData, hsp, flushUpdate_isAudioPlaying,
        bufferUpdate_isAudioPlaying]
  · intro s c b
    simp only [play]
    split
    · rfl
    · rw [playNextOutputChunk_keeps_playing _ b (by simp)]

/-- Witness for C5: the armed mid-playback state with a frame of RMS `0.10`
fires and disarms; from the disarmed initial state the same frame fires
nothing. -/
theorem interrupt_disarm_until_rearm_witness :
    ((processAudioData playingAudio interruptFrame 100).2.interruptSent = true ∧
      (processAudioData playingAudio interruptFrame 100).1.isAudioPlaying = false) ∧
    (interruptCount (runCaptureTrace (initAudioState 0) [(interruptFrame, 100)]).2 = 0 ∧
      (runCaptureTrace (initAudioState 0) [(interruptFrame, 100)]).1.isAudioPlaying
        = false) :=
  ⟨interrupt_disarm_until_rearm.1 playingAudio interruptFrame 100 rfl (by decide)
      (by decide),
    interrupt_disarm_until_rearm.2.1 (initAudioState 0) [(interruptFrame, 100)] rfl⟩

theorem flushUpdate_isSome_iff (s : AudioState) (now : ℤ) :
    ((flushUpdate s now).2).isSome = true ↔ flushCond s now := by
  by_cases h : flushCond s now
  · rw [flushUpdate_pos s now h]
    simp [h]
  · rw [flushUpdate_neg s now h]
    simp [h]

theorem runCaptureTrace_flush_chain (fs : List (Frame × ℤ)) :
    ∀ s : AudioState,
      List.Chain (fun a b => a + sendInterval ≤ b) s.lastSendTime
        (flushTimes (runCaptureTrace s fs).2) := by
  induction fs with
  | nil => exact fun s => List.Chain.nil
  | cons p rest ih =>
    intro s
    obtain ⟨f, t⟩ := p
    unfold runCaptureTrace
    by_cases hc : flushCond (bufferUpdate (speechUpdate s f t).1 f t) t
    · have hflushed : (processAudioData s f t).2.flushed =
          some (bufferUpdate (speechUpdate s f t).1 f t).audioBufferParts.flatten := by
        show (flushUpdate (bufferUpdate (speechUpdate s f t).1 f t) t).2 = _
        rw [flushUpdate_pos _ _ hc]
      have hlst : (processAudioData s f t).1.lastSendTime = t := by
        show (flushUpdate (bufferUpdate (speechUpdate s f t).1 f t) t).1.lastSendTime = t
        rw [flushUpdate_pos _ _ hc]
      have hge : s.lastSendTime + sendInterval ≤ t := by
        have h1 := hc.1
        rw [bufferUpdate_lastSendTime, speechUpdate_lastSendTime] at h1
        linarith
      have hchain := ih (processAudioData s f t).1
      rw [hlst] at hchain
      simp only [flushTimes, List.filter, hflushed, Option.isSome_some, List.map]
      exact List.Chain.cons hge hchain
    · have hflushed : (processAudioData s f t).2.flushed = none := by
        show (flushUpdate (bufferUpdate (speechUpdate s f t).1 f t) t).2 = none
        rw [flushUpdate_neg _ _ hc]
      have hlst : (processAudioData s f t).1.lastSendTime = s.lastSendTime := by
        show (flushUpdate (bufferUpdate (speechUpdate s f t).1 f t) t).1.lastSendTime = _
        rw [flushUpdate_neg _ _ hc, bufferUpdate_lastSendTime, speechUpdate_lastSendTime]
      have hchain := ih (processAudioData s f t).1
      rw [hlst] at hchain
      simp only [flushTimes, List.filter, hflushed, Option.isSome_none]
      exact hchain

/-- Claim C6: in a capture step, an outbound flush occurs iff the send
interval has elapsed since the last flush, the (post-buffering) Capture
Buffer is non-empty and "should transmit" holds; a flush empties the buffer,
resets the flush timer and carries the concatenation of the buffered chunks;
along any run successive flushes are at least one send interval apart; and no
flush can occur while "should transmit" is false. -/
theorem flush_policy :
    (∀ (s : AudioState) (f : Frame) (now : ℤ),
        ((processAudioData s f now).2.flushed).isSome = true ↔
          (sendInterval ≤ now - s.lastSendTime ∧
            (bufferUpdate (speechUpdate s f now).1 f now).audioBufferParts ≠ [] ∧
            shouldSendAudio (speechUpdate s f now).1 now = true)) ∧
    (∀ (s : AudioState) (f : Frame) (now : ℤ),
        ((processAudioData s f now).2.flushed).isSome = true →
          (processAudioData s f now).1.audioBufferParts = [] ∧
            (processAudioData s f now).1.lastSendTime = now ∧
            (processAudioData s f now).2.flushed =
              some (bufferUpdate (speechUpdate s f now).1 f now).audioBufferParts.flatten) ∧
    (∀ (s : AudioState) (fs : List (Frame × ℤ)),
        List.Chain (fun a b => a + sendInterval ≤ b) s.lastSendTime
          (flushTimes (runCaptureTrace s fs).2)) ∧
    (∀ (s : AudioState) (f : Frame) (now : ℤ),
        shouldSendAudio (speechUpdate s f now).1 now = false →
          (processAudioData s f now).2.flushed = none) := by
  refine ⟨?_, ?_, fun s fs => runCaptureTrace_flush_chain fs s, ?_⟩
  · intro s f now
    have hchar : ((processAudioData s f now).2.flushed) =
        (flushUpdate (bufferUpdate (speechUpdate s f now).1 f now) now).2 := rfl
    rw [hchar, flushUpdate_isSome_iff]
    unfold flushCond
    rw [bufferUpdate_lastSendTime, speechUpdate_lastSendTime,
      shouldSendAudio_of_lastSpeechTime _ _ now (bufferUpdate_lastSpeechTime _ f now)]
  · intro s f now h
    have hc : flushCond (bufferUpdate (speechUpdate s f now).1 f now) now :=
      (flushUpdate_isSome_iff _ _).mp h
    refine ⟨?_, ?_, ?_⟩
    · show (flushUpdate (bufferUpdate (speechUpdate s f now).1 f now) now).1.audioBufferParts = []
      rw [flushUpdate_pos _ _ hc]
    · show (flushUpdate (bufferUpdate (speechUpdate s f now).1 f now) now).1.lastSendTime = now
      rw [flushUpdate_pos _ _ hc]
    · show (flushUpdate (bufferUpdate (speechUpdate s f now).1 f now) now).2 = _
      rw [flushUpdate_pos _ _ hc]
  · intro s f now h
    have hnc : ¬ flushCond (bufferUpdate (speechUpdate s f now).1 f now) now := by
      intro hcc
      have h3 := hcc.2.2
      rw [shouldSendAudio_of_lastSpeechTime _ _ now
        (bufferUpdate_lastSpeechTime _ f now), h] at h3
      exact Bool.noConfusion h3
    show (flushUpdate (bufferUpdate (speechUpdate s f now).1 f now) now).2 = none
    rw [flushUpdate_neg _ _ hnc]

/-- Witness for C6: the due state flushes at 600 ms (its payload present, the
buffer emptied, the timer reset), and a fresh state with "should transmit"
false flushes nothing. -/
theorem flush_policy_witness :
    ((processAudioData flushReadyAudio silentFrame 600).1.audioBufferParts = [] ∧
      (processAudioData flushReadyAudio silentFrame 600).1.lastSendTime = 600 ∧
      (processAudioData flushReadyAudio silentFrame 600).2.flushed =
        some (bufferUpdate (speechUpdate flushReadyAudio silentFrame 600).1
          silentFrame 600).audioBufferParts.flatten) ∧
    (processAudioData (initAudioState 0) silentFrame 600).2.flushed = none :=
  ⟨flush_policy.2.1 flushReadyAudio silentFrame 600 (by decide),
    flush_policy.2.2.2 (initAudioState 0) silentFrame 600 (by decide)⟩

theorem shouldSendAudio_mono (s : AudioState) (now now' : ℤ) (h : now ≤ now')
    (hf : shouldSendAudio s now = false) : shouldSendAudio s now' = false := by
  unfold shouldSendAudio at hf ⊢
  cases hl : s.lastSpeechTime with
  | none => rfl
  | some t =>
    rw [hl] at hf
    simp only [decide_eq_false_iff_not, not_lt] at hf ⊢
    linarith

theorem isSpeech_false_of_low (f : Frame) (h : calculateRMS f < silenceThreshold) :
    isSpeech f = false := by
  unfold isSpeech
  simp only [decide_eq_false_iff_not, not_lt]
  linarith

theorem processAudioData_lastSpeechTime_low (s : AudioState) (f : Frame) (now : ℤ)
    (h : calculateRMS f < silenceThreshold) :
    (processAudioData s f now).1.lastSpeechTime = s.lastSpeechTime := by
  have hs := speechUpdate_not_speech s f now (isSpeech_false_of_low f h)
  simp only [processAudioData, hs]
  rw [flushUpdate_lastSpeechTime, bufferUpdate_lastSpeechTime]

theorem processAudioData_silent (s : AudioState) (f : Frame) (now : ℤ)
    (h1 : isSpeech f = false) (h2 : shouldSendAudio s now = false) :
    (processAudioData s f now).1 = s := by
  have hs := speechUpdate_not_speech s f now h1
  have hb : bufferUpdate s f now = s := bufferUpdate_not_sending s f now h2
  have hnc : ¬ flushCond s now := by
    intro hcc
    have h3 := hcc.2.2
    rw [h2] at h3
    exact Bool.noConfusion h3
  simp only [processAudioData, hs, hb]
  rw [flushUpdate_neg _ _ hnc]

theorem runCaptureTrace_silent_unchanged (fs : List (Frame × ℤ)) :
    ∀ (s : AudioState) (t0 : ℤ),
      (∀ p ∈ fs, calculateRMS p.1 < silenceThreshold) →
      List.Chain (fun a b => a ≤ b) t0 (fs.map Prod.snd) →
      shouldSendAudio s t0 = false →
      (runCaptureTrace s fs).1 = s := by
  induction fs with
  | nil => exact fun s t0 _ _ _ => rfl
  | cons p rest ih =>
    intro s t0 hall hchain h0
    obtain ⟨f, t⟩ := p
    simp only [List.map_cons] at hchain
    rw [List.chain_cons] at hchain
    obtain ⟨hle, hchain'⟩ := hchain
    have hf : calculateRMS f < silenceThreshold := hall (f, t) (List.mem_cons_self _ _)
    have hs0 : shouldSendAudio s t = false := shouldSendAudio_mono s t0 t hle h0
    have hstep : (processAudioData s f t).1 = s :=
      processAudioData_silent s f t (isSpeech_false_of_low f hf) hs0
    unfold runCaptureTrace
    simp only [hstep]
    exact ih s t (fun q hq => hall q (List.mem_cons_of_mem _ hq)) hchain' hs0

/-- Claim C7: "should transmit" is true iff the last-speech timestamp is
non-null and less than the 2000 ms silence timeout old; a frame whose clamped
RMS is below the silence threshold leaves the last-speech timestamp unchanged;
"should transmit" is antitone in elapsed time; hence over any run of
sub-threshold frames with nondecreasing wall clock, "should transmit" never
transitions from false to true. -/
theorem should_transmit_policy :
    (∀ (s : AudioState) (now : ℤ),
        shouldSendAudio s now = true ↔
          ∃ t, s.lastSpeechTime = some t ∧ now - t < silenceTimeout) ∧
    (∀ (s : AudioState) (f : Frame) (now : ℤ),
        calculateRMS f < silenceThreshold →
          (processAudioData s f now).1.lastSpeechTime = s.lastSpeechTime) ∧
    (∀ (s : AudioState) (now now' : ℤ), now ≤ now' →
        shouldSendAudio s now = false → shouldSendAudio s now' = false) ∧
    (∀ (fs : List (Frame × ℤ)) (s : AudioState) (t0 : ℤ),
        (∀ p ∈ fs, calculateRMS p.1 < silenceThreshold) →
        List.Chain (fun a b => a ≤ b) t0 (fs.map Prod.snd) →
        shouldSendAudio s t0 = false →
        ∀ t1, t0 ≤ t1 →
          shouldSendAudio (runCaptureTrace s fs).1 t1 = false) := by
  refine ⟨?_, processAudioData_lastSpeechTime_low, shouldSendAudio_mono, ?_⟩
  · intro s now
    unfold shouldSendAudio
    cases hl : s.lastSpeechTime with
    | none => simp
    | some t => simp
  · intro fs s t0 hall hchain h0 t1 ht1
    rw [runCaptureTrace_silent_unchanged fs s t0 hall hchain h0]
    exact shouldSendAudio_mono s t0 t1 ht1 h0

/-- Witness for C7: a sub-threshold frame leaves the 550 ms speech stamp
unchanged; a false "should transmit" stays false as the clock advances; and a
silent run from the fresh state keeps it false. -/
theorem should_transmit_policy_witness :
    (processAudioData flushReadyAudio silentFrame 600).1.lastSpeechTime
      = flushReadyAudio.lastSpeechTime ∧
    shouldSendAudio (initAudioState 0) 5 = false ∧
    shouldSendAudio (runCaptureTrace (initAudioState 0) [(silentFrame, 10)]).1 20
      = false :=
  ⟨should_transmit_policy.2.1 flushReadyAudio silentFrame 600 (by decide),
    should_transmit_policy.2.2.1 (initAudioState 0) 0 5 (by decide) (by decide),
    should_transmit_policy.2.2.2 [(silentFrame, 10)] (initAudioState 0) 0
      (by decide) (List.Chain.cons (by decide) List.Chain.nil) (by decide) 20
      (by decide)⟩

theorem play_while_playing (s : AudioState) (c : List ℤ) (b : Bool)
    (h : s.isOutputPlaying = true) :
    play s c b = { state := { s with isAudioPlaying := true,
                                     outputQueue := s.outputQueue ++ [c] },
                   started := none, reported := false } := by
  simp only [play]
  split
  · rfl
  · rename_i hcond
    exact absurd h hcond

theorem playNextOutputChunk_cons (s : AudioState) (c : List ℤ)
    (rest : List (List ℤ)) (h : s.outputQueue = c :: rest) :
    playNextOutputChunk s false =
      { state := { s with outputQueue := rest, isOutputPlaying := true,
                          currentOutputSource := some c },
        started := some c, reported := false } := by
  unfold playNextOutputChunk
  rw [h]
  rfl

theorem playNextOutputChunk_nil (s : AudioState) (b : Bool)
    (h : s.outputQueue = []) :
    playNextOutputChunk s b =
      { state := { s with isOutputPlaying := false, isAudioPlaying := false,
                          currentOutputSource := none },
        started := none, reported := false } := by
  unfold playNextOutputChunk
  rw [h]

theorem runPlayback_cons (s : AudioState) (e : PlayEvent) (evs : List PlayEvent) :
    runPlayback s (e :: evs) =
      ((runPlayback (playStep s e).state evs).1,
        (playStep s e).started.toList ++ (runPlayback (playStep s e).state evs).2) :=
  rfl

theorem runPlayback_append (l1 l2 : List PlayEvent) :
    ∀ s : AudioState,
      runPlayback s (l1 ++ l2) =
        ((runPlayback (runPlayback s l1).1 l2).1,
          (runPlayback s l1).2 ++ (runPlayback (runPlayback s l1).1 l2).2) := by
  induction l1 with
  | nil => intro s; simp [runPlayback]
  | cons e rest ih =>
    intro s
    rw [List.cons_append, runPlayback_cons, ih (playStep s e).state,
      runPlayback_cons]
    simp [List.append_assoc]

theorem runPlayback_enqueues (cs : List (List ℤ)) :
    ∀ s : AudioState, s.isOutputPlaying = true → s.isAudioPlaying = true →
      runPlayback s (cs.map PlayEvent.enqueue) =
        ({ s with outputQueue := s.outputQueue ++ cs }, []) := by
  induction cs with
  | nil =>
    intro s h1 h2
    simp [runPlayback]
  | cons c rest ih =>
    intro s h1 h2
    have step : playStep s (PlayEvent.enqueue c) =
        { state := { s with isAudioPlaying := true,
                            outputQueue := s.outputQueue ++ [c] },
          started := none, reported := false } := by
      simp only [playStep]
      exact play_while_playing s c false h1
    rw [List.map_cons, runPlayback_cons]
    simp only [step]
    rw [ih { s with isAudioPlaying := true,
                    outputQueue := s.outputQueue ++ [c] } h1 rfl]
    simp [List.append_assoc, h2]

theorem runPlayback_endeds (q : List (List ℤ)) :
    ∀ s : AudioState, s.isOutputPlaying = true → s.outputQueue = q →
      runPlayback s (List.replicate (q.length + 1) PlayEvent.ended) =
        ({ s with outputQueue := [], isOutputPlaying := false,
                  isAudioPlaying := false, currentOutputSource := none }, q) := by
  induction q with
  | nil =>
    intro s h1 h2
    have step : playStep s PlayEvent.ended =
        { state := { s with isOutputPlaying := false, isAudioPlaying := false,
                            currentOutputSource := none },
          started := none, reported := false } := by
      simp only [playStep]
      exact playNextOutputChunk_nil s false h2
    show runPlayback s [PlayEvent.ended] = _
    rw [runPlayback_cons]
    simp only [step]
    simp [runPlayback, h2]
  | cons c rest ih =>
    intro s h1 h2
    have step : playStep s PlayEvent.ended =
        { state := { s with outputQueue := rest, isOutputPlaying := true,
                            currentOutputSource := some c },
          started := some c, reported := false } := by
      simp only [playStep]
      exact playNextOutputChunk_cons s c rest h2
    have hrep : List.replicate ((c :: rest).length + 1) PlayEvent.ended
        = PlayEvent.ended :: List.replicate (rest.length + 1) PlayEvent.ended := by
      simp [List.replicate_succ]
    rw [hrep, runPlayback_cons]
    simp only [step]
    rw [ih { s with outputQueue := rest, isOutputPlaying := true,
                    currentOutputSource := some c } rfl rfl]
    simp

/-- The state reached from idle after the first chunk `c` starts rendering
with `q` chunks queued behind it. -/
def playingFrom (c : List ℤ) (q : List (List ℤ)) : AudioState :=
  { initAudioState 0 with
      outputQueue := q
      isOutputPlaying := true
      currentOutputSource := some c
      isAudioPlaying := true }

/-- Claim C4: enqueuing N chunks from idle and letting each render complete
yields exactly N render starts, strictly in enqueue order, and returns the
queue to Idle (the initial state); an enqueue that arrives while Playing
starts nothing; and at most one chunk is rendering at any time (the single
`currentOutputSource` slot). -/
theorem playback_queue_fifo :
    (∀ cs : List (List ℤ),
        runPlayback (initAudioState 0)
          (cs.map PlayEvent.enqueue ++ List.replicate cs.length PlayEvent.ended) =
          (initAudioState 0, cs)) ∧
    (∀ (s : AudioState) (c : List ℤ) (b : Bool), s.isOutputPlaying = true →
        (play s c b).started = none ∧
          (play s c b).state = { s with isAudioPlaying := true,
                                        outputQueue := s.outputQueue ++ [c] }) ∧
    (∀ s : AudioState, numRendering s ≤ 1) := by
  refine ⟨?_, ?_, ?_⟩
  · intro cs
    cases cs with
    | nil => rfl
    | cons c rest =>
      have step0 : playStep (initAudioState 0) (PlayEvent.enqueue c) =
          { state := playingFrom c [], started := some c, reported := false } := rfl
      have eA : runPlayback (initAudioState 0)
          (List.map PlayEvent.enqueue (c :: rest)) = (playingFrom c rest, [c]) := by
        rw [List.map_cons, runPlayback_cons]
        simp only [step0]
        rw [runPlayback_enqueues rest (playingFrom c []) rfl rfl]
        rfl
      rw [runPlayback_append]
      simp only [eA, List.length_cons]
      rw [runPlayback_endeds rest (playingFrom c rest) rfl rfl]
      rfl
  · intro s c b h
    rw [play_while_playing s c b h]
    exact ⟨rfl, rfl⟩
  · intro s
    unfold numRendering
    cases s.currentOutputSource
    · exact Nat.zero_le 1
    · exact Nat.le_refl 1

/-- Witness for C4: two chunks enqueued from idle render exactly twice, in
order, and the queue returns to the initial idle state; an enqueue during
playback starts nothing. -/
theorem playback_queue_fifo_witness :
    runPlayback (initAudioState 0)
      (([[5], [6]] : List (List ℤ)).map PlayEvent.enqueue ++
        List.replicate ([[5], [6]] : List (List ℤ)).length PlayEvent.ended) =
      (initAudioState 0, [[5], [6]]) ∧
    (play playingAudio [9] false).started = none :=
  ⟨playback_queue_fifo.1 [[5], [6]],
    (playback_queue_fifo.2.1 playingAudio [9] false rfl).1⟩

/-- Claim C8 (amended): for samples in `[-1, 1]` the round trip through the
int16 conversion and back errs by strictly less than `2/32768` per sample
(truncation toward zero contributes up to one step of the `1/32767` grid and
the `32767`-down / `32768`-up scale mismatch up to another `1/32768`), never
flips the sample's sign, and the intermediate int16 value stays within
`[-32767, 32767]`. -/
theorem pcm_roundtrip_error_bound :
    ∀ x : ℚ, -1 ≤ x → x ≤ 1 →
      |roundTrip x - x| < 2/32768 ∧
      (0 ≤ x → 0 ≤ roundTrip x) ∧ (x ≤ 0 → roundTrip x ≤ 0) ∧
      -32767 ≤ sampleToInt16 x ∧ sampleToInt16 x ≤ 32767 := by
  intro x h1 h2
  have hclamp : clampSample x = x := by
    unfold clampSample
    rw [min_eq_right h2, max_eq_right h1]
  by_cases hx : 0 ≤ x
  · have hu : (0:ℚ) ≤ x * 32767 := by positivity
    have hN : sampleToInt16 x = ⌊x * 32767⌋ := by
      unfold sampleToInt16 truncQ
      rw [hclamp, if_pos hu]
    have hrt : roundTrip x = ((⌊x * 32767⌋ : ℤ) : ℚ) / 32768 := by
      unfold roundTrip int16ToFloat
      rw [hN]
    have hfl : ((⌊x * 32767⌋ : ℤ) : ℚ) ≤ x * 32767 := Int.floor_le _
    have hfl2 : x * 32767 - 1 < ((⌊x * 32767⌋ : ℤ) : ℚ) := Int.sub_one_lt_floor _
    have hn0 : (0:ℤ) ≤ ⌊x * 32767⌋ := Int.floor_nonneg.mpr hu
    have hn0q : (0:ℚ) ≤ ((⌊x * 32767⌋ : ℤ) : ℚ) := by exact_mod_cast hn0
    have hn32 : ⌊x * 32767⌋ ≤ (32767:ℤ) := by
      have hq : ((⌊x * 32767⌋ : ℤ) : ℚ) ≤ 32767 := le_trans hfl (by nlinarith)
      exact_mod_cast hq
    refine ⟨?_, fun _ => ?_, fun hx0 => ?_, ?_, ?_⟩
    · rw [hrt, abs_lt]
      constructor
      · linarith
      · linarith
    · rw [hrt]
      linarith
    · have hx00 : x = 0 := le_antisymm hx0 hx
      subst hx00
      rw [hrt]
      norm_num
    · rw [hN]
      omega
    · rw [hN]
      exact hn32
  · have hxneg : x < 0 := not_le.mp hx
    have hu : x * 32767 < 0 := by nlinarith
    have hN : sampleToInt16 x = ⌈x * 32767⌉ := by
      unfold sampleToInt16 truncQ
      rw [hclamp, if_neg (not_le.mpr hu)]
    have hrt : roundTrip x = ((⌈x * 32767⌉ : ℤ) : ℚ) / 32768 := by
      unfold roundTrip int16ToFloat
      rw [hN]
    have hcl : x * 32767 ≤ ((⌈x * 32767⌉ : ℤ) : ℚ) := Int.le_ceil _
    have hcl2 : ((⌈x * 32767⌉ : ℤ) : ℚ) < x * 32767 + 1 := Int.ceil_lt_add_one _
    have hn0 : ⌈x * 32767⌉ ≤ (0:ℤ) := by
      rw [Int.ceil_le]
      push_cast
      linarith
    have hn0q : ((⌈x * 32767⌉ : ℤ) : ℚ) ≤ 0 := by exact_mod_cast hn0
    have hnlow : (-32767:ℤ) ≤ ⌈x * 32767⌉ := by
      have hq : (-32767 : ℚ) ≤ ((⌈x * 32767⌉ : ℤ) : ℚ) := le_trans (by nlinarith) hcl
      exact_mod_cast hq
    refine ⟨?_, fun hx0 => absurd hx0 hx, fun _ => ?_, ?_, ?_⟩
    · rw [hrt, abs_lt]
      constructor
      · linarith
      · linarith
    · rw [hrt]
      linarith
    · rw [hN]
      exact hnlow
    · rw [hN]
      omega

/-- Witness for C8 (amended): the amended bound, sign preservation and int16
range at the concrete sample `2/3`. -/
theorem pcm_roundtrip_error_bound_witness :
    |roundTrip (2/3) - 2/3| < 2/32768 ∧
    (0 ≤ (2/3 : ℚ) → 0 ≤ roundTrip (2/3)) ∧
    ((2/3 : ℚ) ≤ 0 → roundTrip (2/3) ≤ 0) ∧
    -32767 ≤ sampleToInt16 (2/3) ∧ sampleToInt16 (2/3) ≤ 32767 :=
  pcm_roundtrip_error_bound (2/3) (by norm_num) (by norm_num)

/-- Claim C9: when `source.start()` throws for the head chunk, the failure is
reported (`console.error`), the chunk is abandoned (already shifted off the
queue, never re-queued, no render started), the queue transitions to Idle
(`isOutputPlaying = false`, no in-flight source), and nothing of the session
is touched — the published `ConversationState`, the running flag and the
websocket are unchanged, so the error is not fatal to the session. -/
theorem render_failure_policy :
    ∀ (m : ManagerState) (c : List ℤ) (rest : List (List ℤ)),
      m.audio.outputQueue = c :: rest →
        (playNextOutputChunk m.audio true).reported = true ∧
        (playNextOutputChunk m.audio true).started = none ∧
        (playNextOutputChunk m.audio true).state.outputQueue = rest ∧
        (playNextOutputChunk m.audio true).state.isOutputPlaying = false ∧
        (playNextOutputChunk m.audio true).state.currentOutputSource = none ∧
        (managerRenderStep m true).convState = m.convState ∧
        (managerRenderStep m true).isRunning = m.isRunning ∧
        (managerRenderStep m true).wsConnected = m.wsConnected := by
  intro m c rest h
  have hp : playNextOutputChunk m.audio true =
      { state := { m.audio with outputQueue := rest, isOutputPlaying := false,
                                currentOutputSource := none },
        started := none, reported := true } := by
    unfold playNextOutputChunk
    rw [h]
    rfl
  rw [hp]
  exact ⟨rfl, rfl, rfl, rfl, rfl, rfl, rfl, rfl⟩

/-- Witness for C9: the mid-playback manager with queue `[[5]]` on a failing
render start: reported, queue emptied to Idle, published state untouched. -/
theorem render_failure_policy_witness :
    (playNextOutputChunk playingManager.audio true).reported = true ∧
    (playNextOutputChunk playingManager.audio true).state.outputQueue = [] ∧
    (playNextOutputChunk playingManager.audio true).state.isOutputPlaying = false ∧
    (managerRenderStep playingManager true).convState = playingManager.convState :=
  have h := render_failure_policy playingManager [5] [] rfl
  ⟨h.1, h.2.2.1, h.2.2.2.1, h.2.2.2.2.2.1⟩

/-- Claim C10: because `calculateRMS` clamps every RMS below `0.02` to `0`,
a frame is classified as speech iff its raw RMS is at least the `0.02` noise
floor; the clamped RMS is never strictly between `0` and `0.02`; and any
threshold in `[0, 0.02)` — in particular the silence threshold `0.01` —
yields the same classifier. -/
theorem noise_floor_decides_speech :
    (∀ f : Frame, 0 ≤ f.rms → (isSpeech f = true ↔ noiseFloor ≤ f.rms)) ∧
    (∀ f : Frame, 0 ≤ f.rms →
        ¬(0 < calculateRMS f ∧ calculateRMS f < noiseFloor)) ∧
    (∀ (f : Frame) (c : ℚ), 0 ≤ c → c < noiseFloor → 0 ≤ f.rms →
        ((c < calculateRMS f) ↔ isSpeech f = true)) := by
  have hs : silenceThreshold < noiseFloor := by
    norm_num [silenceThreshold, noiseFloor]
  refine ⟨?_, ?_, ?_⟩
  · intro f h0
    unfold isSpeech calculateRMS
    by_cases hr : f.rms < noiseFloor
    · rw [if_pos hr]
      simp only [decide_eq_true_eq]
      constructor
      · intro hlt
        exact absurd hlt (by norm_num [silenceThreshold])
      · intro hge
        exact absurd (lt_of_le_of_lt hge hr) (lt_irrefl _)
    · rw [if_neg hr]
      push_neg at hr
      simp only [decide_eq_true_eq]
      exact ⟨fun _ => hr, fun _ => by linarith⟩
  · intro f h0
    rintro ⟨hpos, hlt⟩
    unfold calculateRMS at hpos hlt
    by_cases hr : f.rms < noiseFloor
    · rw [if_pos hr] at hpos
      exact lt_irrefl 0 hpos
    · rw [if_neg hr] at hlt
      exact hr hlt
  · intro f c hc0 hclt h0
    unfold isSpeech calculateRMS
    by_cases hr : f.rms < noiseFloor
    · rw [if_pos hr]
      simp only [decide_eq_true_eq]
      constructor
      · intro hlt
        exact absurd hlt (not_lt.mpr hc0)
      · intro hsp
        exact absurd hsp (by norm_num [silenceThreshold])
    · rw [if_neg hr]
      push_neg at hr
      simp only [decide_eq_true_eq]
      exact ⟨fun _ => by linarith, fun _ => by linarith⟩

/-- Witness for C10: the frame with all samples `1/50` (true RMS exactly
`0.02`) instantiates all three conjuncts, with the silence threshold `0.01`
as the alternative cut, and its `rms` field is the genuine root of its mean
square. -/
theorem noise_floor_decides_speech_witness :
    (isSpeech speechFrame002 = true ↔ noiseFloor ≤ speechFrame002.rms) ∧
    ¬(0 < calculateRMS silentFrame ∧ calculateRMS silentFrame < noiseFloor) ∧
    ((silenceThreshold < calculateRMS speechFrame002) ↔
      isSpeech speechFrame002 = true) ∧
    isRMSof speechFrame002.rms speechFrame002.samples :=
  ⟨noise_floor_decides_speech.1 speechFrame002 (by decide),
    noise_floor_decides_speech.2.1 silentFrame (by decide),
    noise_floor_decides_speech.2.2 speechFrame002 silenceThreshold (by decide)
      (by decide) (by decide),
    by decide⟩

end Austack
